import Mathlib

/-!
Verification development for the Importance Scoring and Memory Lifecycle
Engine (src/src/memory-scorer.ts).  The TypeScript module is shallowly
embedded: strings are lists of characters, JS numbers are rationals
(integer results are `Int`), asynchronous collaborator calls (the storage
adapter and the external scoring model) are passed in as explicit
outcomes (`Except` values / an outcome datatype), so that a `catch` in the
source becomes a `match` here.
-/

deriving instance DecidableEq for Except

set_option maxRecDepth 100000
set_option maxHeartbeats 2000000

namespace MemoryCortex

/-- Strings from the source are modelled as lists of characters. -/
abbrev Str := List Char

/-- JavaScript Math.round: rounds half-way cases toward positive infinity
(the floor of the argument plus one half). -/
def jsRound (q : ℚ) : ℤ := Rat.floor (q + 1/2)

/-- The executable rounding function agrees with the mathematical floor. -/
lemma jsRound_eq_intFloor (q : ℚ) : jsRound q = Int.floor (q + 1/2) := by
  rw [jsRound, Rat.floor_def', Rat.floor_def]

/-- ASCII lower-casing of one character, as JS toLowerCase acts on the
ASCII inputs used by the scorer's lexicons. -/
def toLowerChar (c : Char) : Char :=
  if 'A' ≤ c ∧ c ≤ 'Z' then Char.ofNat (c.toNat + 32) else c

/-- Lower-case a whole string (JS String.prototype.toLowerCase on ASCII). -/
def toLowerStr (s : Str) : Str := s.map toLowerChar

/-- JS String.prototype.startsWith: first argument is the pattern,
second the string searched. -/
def listStartsWith : Str → Str → Bool
  | [], _ => true
  | _ :: _, [] => false
  | c :: cs, d :: ds => c == d && listStartsWith cs ds

/-- JS String.prototype.includes: does the second string contain the
first as a contiguous substring? -/
def strIncludes (needle : Str) : Str → Bool
  | [] => listStartsWith needle []
  | c :: t => listStartsWith needle (c :: t) || strIncludes needle t

/-- Join a list of strings with a single separator character
(JS Array.prototype.join with a one-character separator). -/
def joinWith (sep : Char) : List Str → Str
  | [] => []
  | [x] => x
  | x :: y :: t => x ++ sep :: joinWith sep (y :: t)

/-- Memory tier of a stored record (source union type). -/
inductive Tier
  | explicit
  | silent
  | ephemeral
deriving DecidableEq, BEq, Repr

/-- Role of a conversation segment. -/
inductive Role
  | user
  | assistant
deriving DecidableEq, BEq, Repr

/-- Recommended storage action from a ScoringResult. -/
inductive Action
  | store_explicit
  | store_silent
  | store_ephemeral
  | skip
deriving DecidableEq, BEq, Repr

/-- Provider of the optional local scoring model. -/
inductive Provider
  | llamacpp
  | openai
  | none
deriving DecidableEq, BEq, Repr

/-- Source of a stored memory (MemoryMetadata.source). -/
inductive MemorySource
  | auto_capture
  | user_explicit
  | agent_auto
deriving DecidableEq, BEq, Repr

/-- Metadata stored with each memory (the fields the scorer reads). -/
structure MemoryMetadata where
  tier : Tier
  score : ℚ
  source : MemorySource
  reinforcementCount : ℚ
deriving DecidableEq, Repr

/-- One result of an adapter recall/list call. -/
structure MemoryResult where
  id : String
  content : Str
  relevanceScore : ℚ
  metadata : MemoryMetadata
deriving DecidableEq, Repr

/-- One role-tagged span of conversation text. -/
structure ConversationSegment where
  content : Str
  role : Role
deriving DecidableEq, Repr

/-- Configuration for the optional local scoring model (ScoringModelConfig). -/
structure ScoringModelConfig where
  provider : Provider
  model : Option String := Option.none
  endpoint : Option String := Option.none
  apiKey : Option String := Option.none
  timeoutMs : Option ℚ := Option.none
deriving DecidableEq, Repr

/-- Engine configuration (ScoringConfig). -/
structure ScoringConfig where
  enabled : Bool
  explicitThreshold : ℚ
  ephemeralThreshold : ℚ
  defaultEphemeralHours : ℚ
  defaultSilentDays : ℚ
  cleanupIntervalHours : ℚ
  notifyOnExplicit : Bool
  askBeforeDowngrade : Bool
  minConversationLength : ℚ
  minMessageCount : ℚ
  defaultTier : Tier
  scoringModel : Option ScoringModelConfig := Option.none
deriving DecidableEq, Repr

/-- DEFAULT_SCORING_CONFIG from the source. -/
def DEFAULT_SCORING_CONFIG : ScoringConfig where
  enabled := true
  explicitThreshold := 8
  ephemeralThreshold := 4
  defaultEphemeralHours := 72
  defaultSilentDays := 30
  cleanupIntervalHours := 12
  notifyOnExplicit := true
  askBeforeDowngrade := true
  minConversationLength := 50
  minMessageCount := 1
  defaultTier := Tier.silent
  scoringModel := Option.none

/-- A Partial ScoringConfig value: each field optionally present, as a
TypeScript object literal passed where Partial of ScoringConfig is
expected. -/
structure ScoringConfigPatch where
  enabled : Option Bool := Option.none
  explicitThreshold : Option ℚ := Option.none
  ephemeralThreshold : Option ℚ := Option.none
  defaultEphemeralHours : Option ℚ := Option.none
  defaultSilentDays : Option ℚ := Option.none
  cleanupIntervalHours : Option ℚ := Option.none
  notifyOnExplicit : Option Bool := Option.none
  askBeforeDowngrade : Option Bool := Option.none
  minConversationLength : Option ℚ := Option.none
  minMessageCount : Option ℚ := Option.none
  defaultTier : Option Tier := Option.none
  scoringModel : Option (Option ScoringModelConfig) := Option.none
deriving DecidableEq, Repr

/-- Object-spread merge of a base config with a Partial update, as
performed by the braces-spread expressions in the constructor and in
updateConfig. -/
def mergeConfig (base : ScoringConfig) (p : ScoringConfigPatch) : ScoringConfig where
  enabled := p.enabled.getD base.enabled
  explicitThreshold := p.explicitThreshold.getD base.explicitThreshold
  ephemeralThreshold := p.ephemeralThreshold.getD base.ephemeralThreshold
  defaultEphemeralHours := p.defaultEphemeralHours.getD base.defaultEphemeralHours
  defaultSilentDays := p.defaultSilentDays.getD base.defaultSilentDays
  cleanupIntervalHours := p.cleanupIntervalHours.getD base.cleanupIntervalHours
  notifyOnExplicit := p.notifyOnExplicit.getD base.notifyOnExplicit
  askBeforeDowngrade := p.askBeforeDowngrade.getD base.askBeforeDowngrade
  minConversationLength := p.minConversationLength.getD base.minConversationLength
  minMessageCount := p.minMessageCount.getD base.minMessageCount
  defaultTier := p.defaultTier.getD base.defaultTier
  scoringModel := p.scoringModel.getD base.scoringModel

/-- MemoryScorer constructor: merges the supplied Partial config with the
defaults and throws (here: Except.error) when the merged thresholds
violate ephemeralThreshold < explicitThreshold; the scorer's state is its
validated config (the adapter collaborator is abstracted into the
per-call outcomes below). -/
def mkMemoryScorer (config : ScoringConfigPatch) : Except String ScoringConfig :=
  let merged := mergeConfig DEFAULT_SCORING_CONFIG config
  if merged.ephemeralThreshold ≥ merged.explicitThreshold then
    Except.error
      ("Invalid scoring thresholds: ephemeralThreshold (" ++
        toString merged.ephemeralThreshold ++
        ") must be less than explicitThreshold (" ++
        toString merged.explicitThreshold ++ ")")
  else Except.ok merged

/-- updateConfig: merges the update into the current config; if the merged
thresholds are invalid it warns and restores both thresholds from the
previous config while keeping every other merged field. -/
def updateConfig (cfg : ScoringConfig) (p : ScoringConfigPatch) : ScoringConfig :=
  let merged := mergeConfig cfg p
  if merged.ephemeralThreshold ≥ merged.explicitThreshold then
    { merged with
      ephemeralThreshold := cfg.ephemeralThreshold
      explicitThreshold := cfg.explicitThreshold }
  else merged

/-- Lexicon of explicit importance markers (detectExplicitMarkers). -/
def explicitMarkersList : List Str :=
  ["remember".data, "dont forget".data, "don\x27t forget".data, "important".data,
   "note that".data, "keep in mind".data, "make sure to".data, "never forget".data,
   "always remember".data, "will need this".data, "save this".data, "store this".data,
   "always".data, "never".data, "must remember".data, "critical".data,
   "vital".data, "essential".data]

/-- Detect explicit importance markers in text (case-insensitive substring
match against the marker lexicon). -/
def detectExplicitMarkers (content : Str) : Bool :=
  let lowerContent := toLowerStr content
  explicitMarkersList.any fun marker => strIncludes marker lowerContent

/-- Emotional lexicon, positive bucket. -/
def positiveWords : List Str :=
  ["love".data, "excited".data, "happy".data, "great".data, "awesome".data,
   "amazing".data, "fantastic".data, "wonderful".data]

/-- Emotional lexicon, negative bucket. -/
def negativeWords : List Str :=
  ["hate".data, "frustrated".data, "annoyed".data, "angry".data, "upset".data,
   "disappointed".data, "sad".data, "terrible".data]

/-- Emotional lexicon, preference bucket. -/
def preferenceWords : List Str :=
  ["prefer".data, "like".data, "dislike".data, "want".data, "need".data,
   "wish".data, "hope".data, "love".data, "hate".data]

/-- Emotional lexicon, concern bucket. -/
def concernWords : List Str :=
  ["worried".data, "concerned".data, "afraid".data, "scared".data, "nervous".data]

/-- Number of lexicon words occurring in the (already lower-cased) content;
each for-loop in the source adds its per-hit weight once per word found. -/
def countHits (words : List Str) (lowerContent : Str) : ℕ :=
  (words.filter fun w => strIncludes w lowerContent).length

/-- Detect emotional content: per-hit weights preference 2, negative 2,
concern 3, positive 1, capped at 10. -/
def detectEmotionalContent (content : Str) : ℚ :=
  let lowerContent := toLowerStr content
  let score : ℕ :=
    2 * countHits preferenceWords lowerContent +
    2 * countHits negativeWords lowerContent +
    3 * countHits concernWords lowerContent +
    1 * countHits positiveWords lowerContent
  ((min score 10 : ℕ) : ℚ)

/-- Time lexicon, urgent bucket. -/
def urgentWords : List Str :=
  ["urgent".data, "asap".data, "immediately".data, "right now".data,
   "emergency".data, "critical".data]

/-- Time lexicon, deadline bucket. -/
def deadlineWords : List Str :=
  ["deadline".data, "due".data, "by monday".data, "by friday".data,
   "by tomorrow".data, "end of day".data, "eod".data]

/-- Time lexicon, future bucket. -/
def futureWords : List Str :=
  ["tomorrow".data, "today".data, "next week".data, "upcoming".data, "soon".data,
   "this month".data, "next month".data, "schedule".data, "remind me".data]

/-- Time lexicon, recurring bucket. -/
def recurringWords : List Str :=
  ["every week".data, "daily".data, "weekly".data, "monthly".data,
   "recurring".data, "always".data]

/-- Detect time-sensitive information: per-hit weights urgent 3, deadline 3,
future 2, recurring 2, capped at 10. -/
def detectTimeSensitivity (content : Str) : ℚ :=
  let lowerContent := toLowerStr content
  let score : ℕ :=
    3 * countHits urgentWords lowerContent +
    3 * countHits deadlineWords lowerContent +
    2 * countHits futureWords lowerContent +
    2 * countHits recurringWords lowerContent
  ((min score 10 : ℕ) : ℚ)

/-- Utility lexicon, high bucket (predictFutureUtility). -/
def highUtilityWords : List Str :=
  ["preference".data, "prefer".data, "like".data, "dislike".data, "love".data,
   "hate".data, "password".data, "credentials".data, "login".data, "account".data,
   "project".data, "goal".data, "objective".data, "meeting".data, "schedule".data,
   "appointment".data, "configuration".data, "config".data, "setup".data,
   "install".data]

/-- Utility lexicon, medium bucket. -/
def mediumUtilityWords : List Str :=
  ["information".data, "fact".data, "detail".data, "remember".data, "note".data,
   "work".data, "task".data, "todo".data, "learn".data, "study".data,
   "research".data]

/-- Utility lexicon, low bucket. -/
def lowUtilityWords : List Str :=
  ["hello".data, "hi".data, "thanks".data, "thank you".data, "okay".data,
   "sure".data, "question".data, "what".data, "how".data, "why".data]

/-- Predict future utility: starts at 5; +2 when any high-utility keyword
occurs in the content, +1 additionally when any medium-utility keyword
occurs, -2 when the content equals a low-utility phrase or starts with one
followed by a space, +1 when the conversation has more than 3 segments;
clamped to the range 0..10.  Returns 5 for content below 20 characters. -/
def predictFutureUtility (content : Str) (segments : List ConversationSegment) : ℚ :=
  if content.length < 20 then 5
  else
    let lowerContent := toLowerStr content
    let s1 : ℤ :=
      if highUtilityWords.any (fun w => strIncludes w lowerContent) then 5 + 2 else 5
    let s2 : ℤ :=
      if mediumUtilityWords.any (fun w => strIncludes w lowerContent) then s1 + 1 else s1
    let s3 : ℤ :=
      if lowUtilityWords.any
           (fun w => lowerContent == w || listStartsWith (w ++ [' ']) lowerContent)
      then s2 - 2 else s2
    let s4 : ℤ := if 3 < segments.length then s3 + 1 else s3
    ((max 0 (min s4 10) : ℤ) : ℚ)

/-- Check repetition from the shared recall results: 0 for short content or
an empty result set, otherwise round(10 x average relevance). -/
def checkRepetitionFromResults (results : List MemoryResult)
    (segments : List ConversationSegment) : ℚ :=
  let content := joinWith ' ' (segments.map fun s => s.content)
  if content.length < 20 then 0
  else if results.length = 0 then 0
  else
    let avgSimilarity : ℚ := (results.map fun r => r.relevanceScore).sum / results.length
    ((jsRound (avgSimilarity * 10) : ℤ) : ℚ)

/-- Check context anchoring from the shared recall results: 0 for an empty
result set, otherwise min(3 x explicit-tier count + 2 x silent-tier count, 10). -/
def checkContextAnchoringFromResults (results : List MemoryResult) : ℚ :=
  if results.length = 0 then 0
  else
    let explicitCount := (results.filter fun r => r.metadata.tier == Tier.explicit).length
    let silentCount := (results.filter fun r => r.metadata.tier == Tier.silent).length
    ((min (explicitCount * 3 + silentCount * 2) 10 : ℕ) : ℚ)

/-- Check novelty from the shared recall results: 5 for short content, 10
for an empty result set (completely novel), otherwise
round(10 x (1 - average relevance)). -/
def checkNoveltyFromResults (results : List MemoryResult) (content : Str) : ℚ :=
  if content.length < 20 then 5
  else if results.length = 0 then 10
  else
    let avgSimilarity : ℚ := (results.map fun r => r.relevanceScore).sum / results.length
    ((jsRound ((1 - avgSimilarity) * 10) : ℤ) : ℚ)

/-- The seven scoring factors (ScoringFactors). -/
structure ScoringFactors where
  explicit_emphasis : ℚ
  emotional_weight : ℚ
  future_utility : ℚ
  repetition : ℚ
  time_sensitivity : ℚ
  context_anchoring : ℚ
  novelty : ℚ
deriving DecidableEq, Repr

/-- Weighted importance score: normalizes the weighted factor sum against
the maximum possible weighted sum, scales to 0..10, rounds, and caps at 10. -/
def calculateWeightedScore (factors : ScoringFactors) : ℤ :=
  let weightedSum : ℚ :=
    factors.explicit_emphasis * 2.0 +
    factors.emotional_weight * 1.5 +
    factors.future_utility * 1.8 +
    factors.repetition * 1.3 +
    factors.time_sensitivity * 1.5 +
    factors.context_anchoring * 1.2 +
    factors.novelty * 1.0
  let maxPossible : ℚ :=
    10 * 2.0 + 10 * 1.5 + 10 * 1.8 + 10 * 1.3 + 10 * 1.5 + 10 * 1.2 + 10 * 1.0
  min (jsRound (weightedSum / maxPossible * 10)) 10

/-- Determine the memory tier from the score and the configured thresholds. -/
def determineTier (cfg : ScoringConfig) (score : ℤ) : Tier :=
  if (score : ℚ) ≥ cfg.explicitThreshold then Tier.explicit
  else if (score : ℚ) ≥ cfg.ephemeralThreshold then Tier.silent
  else Tier.ephemeral

/-- Determine the recommended action from the tier and the explicit-marker
override. -/
def determineAction (tier : Tier) (hasExplicit : Bool) : Action :=
  if tier == Tier.explicit || hasExplicit then Action.store_explicit
  else if tier == Tier.silent then Action.store_silent
  else Action.store_ephemeral

/-- The engine's output contract (ScoringResult). -/
structure ScoringResult where
  score : ℤ
  tier : Tier
  reasoning : String
  expiresInHours : Option ℚ := Option.none
  recommendedAction : Action
deriving DecidableEq, Repr

/-- Render a tier as its source string literal. -/
def tierToString : Tier → String
  | Tier.explicit => "explicit"
  | Tier.silent => "silent"
  | Tier.ephemeral => "ephemeral"

/-- Generate the human-readable reasoning string for a score. -/
def generateReasoning (score : ℤ) (tier : Tier) (hasExplicit : Bool)
    (emotionalWeight repetitionScore contextAnchoring timeSensitivity
      novelty futureUtility : ℚ) : String :=
  let reasons : List String :=
    (if hasExplicit then ["user explicitly asked to remember"] else []) ++
    (if emotionalWeight > 3 then ["emotional/preference content detected"] else []) ++
    (if repetitionScore > 5 then ["repeated information"] else []) ++
    (if repetitionScore < 3 then ["new, unique information"] else []) ++
    (if contextAnchoring > 5 then ["connects to existing memories"] else []) ++
    (if timeSensitivity > 3 then ["time-sensitive information"] else []) ++
    (if novelty > 7 then ["novel information"] else []) ++
    (if futureUtility > 7 then ["high future utility predicted"] else []) ++
    (if futureUtility < 3 then ["low future utility"] else [])
  let reasons := if reasons.isEmpty then ["routine conversation"] else reasons
  "Score " ++ toString score ++ "/10 (" ++ tierToString tier ++ "): " ++
    String.intercalate ", " reasons

/-- Expiry hours derived from the tier: defaultEphemeralHours for ephemeral,
defaultSilentDays x 24 for silent, absent for explicit.  This is the inline
conditional used both in the heuristic path and in the model path. -/
def expiresForTier (cfg : ScoringConfig) (tier : Tier) : Option ℚ :=
  if tier == Tier.ephemeral then Option.some cfg.defaultEphemeralHours
  else if tier == Tier.silent then Option.some (cfg.defaultSilentDays * 24)
  else Option.none

/-- Outcome of the external-model interaction inside scoreWithLocalModel,
covering every effectful step of the fetch-and-parse sequence: a network or
timeout failure of fetch itself, a non-2xx response, a response body that is
not JSON, an envelope without choices[0].message.content, an inner content
string that fails JSON.parse after fence-stripping, or a parsed JSON object
whose score / tier / reasoning fields are each optionally present. -/
inductive ModelCallOutcome
  | fetchError (msg : String)
  | httpError (status : ℚ) (bodyText : String)
  | badEnvelopeJson
  | emptyContent
  | badContentJson
  | parsed (score : Option ℚ) (tierLabel : Option String) (reasoning : Option String)
deriving DecidableEq, Repr

/-- True on every outcome of the model call that makes scoreWithLocalModel
throw: timeout/network failure, non-2xx status, malformed envelope JSON,
missing message content, or malformed inner JSON. -/
def isModelFailure : ModelCallOutcome → Bool
  | ModelCallOutcome.parsed _ _ _ => false
  | _ => true

/-- JavaScript coercion Number(parsed.score) followed by the default
expression with 5: a missing field (Number gives NaN) and a zero score are
both falsy and replaced by 5. -/
def jsScoreOrFive : Option ℚ → ℚ
  | Option.none => 5
  | Option.some q => if q = 0 then 5 else q

/-- Score a conversation with the configured local model.  The prompt
construction and HTTP exchange of the source are abstracted into the
supplied ModelCallOutcome; every failing step of the source throws, which
here is an Except.error carrying the thrown message. -/
def scoreWithLocalModel (cfg : ScoringConfig) (fullContent : Str)
    (outcome : ModelCallOutcome) : Except String ScoringResult :=
  match outcome with
  | ModelCallOutcome.fetchError msg => Except.error msg
  | ModelCallOutcome.httpError status bodyText =>
      Except.error ("Local scoring model returned HTTP " ++ toString status ++
        ": " ++ bodyText)
  | ModelCallOutcome.badEnvelopeJson => Except.error "Unexpected token in JSON"
  | ModelCallOutcome.emptyContent => Except.error "Empty response from scoring model"
  | ModelCallOutcome.badContentJson => Except.error "Unexpected token in JSON"
  | ModelCallOutcome.parsed score _tierLabel reasoning =>
      let rawScore : ℤ := max 0 (min 10 (jsRound (jsScoreOrFive score)))
      let tier := determineTier cfg rawScore
      let expiresInHours := expiresForTier cfg tier
      let hasExplicit := detectExplicitMarkers fullContent
      Except.ok
        { score := rawScore
          tier := tier
          reasoning := "[LLM] " ++ reasoning.getD "No reasoning provided"
          expiresInHours := expiresInHours
          recommendedAction := determineAction tier hasExplicit }

/-- Recall results available to the similarity checks: the single batched
adapter.recall call is attempted only for content of at least 20 characters
and its failure is caught, leaving the empty list. -/
def recallResultsFor (fullContent : Str)
    (recallOutcome : Except String (List MemoryResult)) : List MemoryResult :=
  if fullContent.length ≥ 20 then
    match recallOutcome with
    | Except.ok results => results
    | Except.error _ => []
  else []

/-- The seven factor values of the heuristic path for the given segments and
shared recall results (the object literal passed to calculateWeightedScore). -/
def heuristicFactors (segments : List ConversationSegment)
    (recallResults : List MemoryResult) : ScoringFactors :=
  let fullContent := joinWith '\n' (segments.map fun s => s.content)
  { explicit_emphasis := if detectExplicitMarkers fullContent then 10 else 0
    emotional_weight := detectEmotionalContent fullContent
    future_utility := predictFutureUtility fullContent segments
    repetition := checkRepetitionFromResults recallResults segments
    time_sensitivity := detectTimeSensitivity fullContent
    context_anchoring := checkContextAnchoringFromResults recallResults
    novelty := checkNoveltyFromResults recallResults fullContent }

/-- Heuristic scoring path of scoreConversation: feature extraction, one
shared recall, weighted aggregation, tier and action resolution. -/
def heuristicScore (cfg : ScoringConfig) (segments : List ConversationSegment)
    (recallOutcome : Except String (List MemoryResult)) : ScoringResult :=
  let fullContent := joinWith '\n' (segments.map fun s => s.content)
  let hasExplicit := detectExplicitMarkers fullContent
  let recallResults := recallResultsFor fullContent recallOutcome
  let factors := heuristicFactors segments recallResults
  let score := calculateWeightedScore factors
  let tier := determineTier cfg score
  let expiresInHours := expiresForTier cfg tier
  let recommendedAction := determineAction tier hasExplicit
  { score := score
    tier := tier
    reasoning := generateReasoning score tier hasExplicit factors.emotional_weight
      factors.repetition factors.context_anchoring factors.time_sensitivity
      factors.novelty factors.future_utility
    expiresInHours := expiresInHours
    recommendedAction := recommendedAction }

/-- The tier field of the heuristic result, by definition. -/
lemma heuristicScore_tier_def (cfg : ScoringConfig)
    (segments : List ConversationSegment)
    (recallOutcome : Except String (List MemoryResult)) :
    (heuristicScore cfg segments recallOutcome).tier =
      determineTier cfg (calculateWeightedScore (heuristicFactors segments
        (recallResultsFor (joinWith '\n' (segments.map fun s => s.content))
          recallOutcome))) := rfl

/-- The score field of the heuristic result, by definition. -/
lemma heuristicScore_score_def (cfg : ScoringConfig)
    (segments : List ConversationSegment)
    (recallOutcome : Except String (List MemoryResult)) :
    (heuristicScore cfg segments recallOutcome).score =
      calculateWeightedScore (heuristicFactors segments
        (recallResultsFor (joinWith '\n' (segments.map fun s => s.content))
          recallOutcome)) := rfl

/-- The recommendedAction field of the heuristic result, by definition. -/
lemma heuristicScore_action_def (cfg : ScoringConfig)
    (segments : List ConversationSegment)
    (recallOutcome : Except String (List MemoryResult)) :
    (heuristicScore cfg segments recallOutcome).recommendedAction =
      determineAction
        (determineTier cfg (calculateWeightedScore (heuristicFactors segments
          (recallResultsFor (joinWith '\n' (segments.map fun s => s.content))
            recallOutcome))))
        (detectExplicitMarkers (joinWith '\n' (segments.map fun s => s.content))) :=
  rfl

/-- Canned result of the disabled-engine fast path. -/
def disabledResult (cfg : ScoringConfig) : ScoringResult :=
  let tier := cfg.defaultTier
  { score := match tier with
      | Tier.explicit => 9
      | Tier.silent => 6
      | Tier.ephemeral => 3
    tier := tier
    reasoning := "Scoring disabled – defaulting to " ++ tierToString tier
    expiresInHours := Option.none
    recommendedAction := match tier with
      | Tier.explicit => Action.store_explicit
      | Tier.silent => Action.store_silent
      | Tier.ephemeral => Action.store_ephemeral }

/-- Fixed result of the trivial-conversation gating short-circuit. -/
def trivialResult : ScoringResult :=
  { score := 2
    tier := Tier.ephemeral
    reasoning := "Conversation too short/trivial – skipping detailed scoring"
    expiresInHours := Option.none
    recommendedAction := Action.store_ephemeral }

/-- Main scoring method.  The storage collaborator's recall and the external
model call are abstracted into explicit outcomes; both are consulted only on
the paths where the source awaits them. -/
def scoreConversation (cfg : ScoringConfig) (segments : List ConversationSegment)
    (recallOutcome : Except String (List MemoryResult))
    (modelOutcome : ModelCallOutcome) : ScoringResult :=
  if cfg.enabled = false then disabledResult cfg
  else
    let fullContent := joinWith '\n' (segments.map fun s => s.content)
    let totalLength := (segments.map fun s => s.content.length).sum
    if ((totalLength : ℚ) < cfg.minConversationLength ∨
          ((segments.length : ℚ) < cfg.minMessageCount)) ∧
        detectExplicitMarkers fullContent = false then
      trivialResult
    else
      match cfg.scoringModel with
      | Option.some modelCfg =>
          if modelCfg.provider ≠ Provider.none then
            match scoreWithLocalModel cfg fullContent modelOutcome with
            | Except.ok result => result
            | Except.error _ => heuristicScore cfg segments recallOutcome
          else heuristicScore cfg segments recallOutcome
      | Option.none => heuristicScore cfg segments recallOutcome

/-- Cleanup of expired ephemeral memories: delegates to the adapter and
returns zero counts when the adapter call fails. -/
def cleanupExpiredMemories (cleanupOutcome : Except String (ℕ × ℕ)) : ℕ × ℕ :=
  match cleanupOutcome with
  | Except.ok result => result
  | Except.error _ => (0, 0)

/-- Body of the per-memory loop of processReinforcements: a failure of
getRelated or of update is caught and leaves the upgraded count unchanged;
a non-empty related set with a successful update increments it. -/
def reinforceStep (getRelatedOutcome : String → Except String (List MemoryResult))
    (updateOutcome : MemoryResult → Except String Unit)
    (upgraded : ℕ) (memory : MemoryResult) : ℕ :=
  match getRelatedOutcome memory.id with
  | Except.error _ => upgraded
  | Except.ok related =>
      if related.length > 0 then
        match updateOutcome memory with
        | Except.error _ => upgraded
        | Except.ok _ => upgraded + 1
      else upgraded

/-- Reinforcement processing: lists ephemeral memories (returning zero
counts when the list call itself fails) and processes each record in
isolation, counting successful ephemeral-to-silent upgrades. -/
def processReinforcements (listOutcome : Except String (List MemoryResult))
    (getRelatedOutcome : String → Except String (List MemoryResult))
    (updateOutcome : MemoryResult → Except String Unit) : ℕ × ℕ :=
  match listOutcome with
  | Except.error _ => (0, 0)
  | Except.ok ephemeralMemories =>
      ((ephemeralMemories.foldl (reinforceStep getRelatedOutcome updateOutcome) 0), 0)

/-! Helper lemmas shared by the claim theorems. -/

/-- Rounding a rational between 0 and 10 stays between 0 and 10. -/
lemma jsRound_bounds (q : ℚ) (h0 : 0 ≤ q) (h1 : q ≤ 10) :
    0 ≤ jsRound q ∧ jsRound q ≤ 10 := by
  rw [jsRound_eq_intFloor]
  constructor
  · exact Int.le_floor.mpr (by push_cast; linarith)
  · have h := Int.floor_lt.mpr (show q + 1/2 < (11 : ℤ) by push_cast; linarith)
    omega

/-- Sum of relevance scores that each lie in the unit interval is between 0
and the list length. -/
lemma relevance_sum_bounds (results : List MemoryResult)
    (h : ∀ m ∈ results, 0 ≤ m.relevanceScore ∧ m.relevanceScore ≤ 1) :
    0 ≤ (results.map fun r => r.relevanceScore).sum ∧
      (results.map fun r => r.relevanceScore).sum ≤ results.length := by
  induction results with
  | nil => simp
  | cons a t ih =>
    have ha := h a (List.mem_cons_self a t)
    have ht := ih fun m hm => h m (List.mem_cons_of_mem a hm)
    simp only [List.map_cons, List.sum_cons, List.length_cons]
    push_cast
    constructor
    · linarith [ha.1, ht.1]
    · linarith [ha.2, ht.2]

/-- The repetition factor is between 0 and 10 whenever every relevance score
lies in the unit interval. -/
lemma checkRepetition_bounds (results : List MemoryResult)
    (segments : List ConversationSegment)
    (h : ∀ m ∈ results, 0 ≤ m.relevanceScore ∧ m.relevanceScore ≤ 1) :
    0 ≤ checkRepetitionFromResults results segments ∧
      checkRepetitionFromResults results segments ≤ 10 := by
  by_cases hc : (joinWith ' ' (segments.map fun s => s.content)).length < 20
  · simp [checkRepetitionFromResults, hc]
  · by_cases he : results.length = 0
    · simp [checkRepetitionFromResults, hc, he]
    · have hlen : 0 < (results.length : ℚ) := by
        have := Nat.pos_of_ne_zero he
        exact_mod_cast this
      obtain ⟨hs0, hs1⟩ := relevance_sum_bounds results h
      have havg0 : 0 ≤ (results.map fun r => r.relevanceScore).sum / results.length :=
        div_nonneg hs0 hlen.le
      have havg1 : (results.map fun r => r.relevanceScore).sum / results.length ≤ 1 :=
        (div_le_one hlen).mpr hs1
      obtain ⟨j0, j1⟩ := jsRound_bounds
        ((results.map fun r => r.relevanceScore).sum / results.length * 10)
        (by linarith) (by linarith)
      simp only [checkRepetitionFromResults, if_neg hc, if_neg he]
      constructor
      · exact_mod_cast j0
      · exact_mod_cast j1

/-- The context-anchoring factor is always between 0 and 10. -/
lemma checkContextAnchoring_bounds (results : List MemoryResult) :
    0 ≤ checkContextAnchoringFromResults results ∧
      checkContextAnchoringFromResults results ≤ 10 := by
  by_cases he : results.length = 0
  · simp [checkContextAnchoringFromResults, he]
  · simp only [checkContextAnchoringFromResults, if_neg he]
    constructor
    · positivity
    · exact_mod_cast min_le_right
        ((results.filter fun r => r.metadata.tier == Tier.explicit).length * 3 +
          (results.filter fun r => r.metadata.tier == Tier.silent).length * 2) 10

/-- The novelty factor is between 0 and 10 whenever every relevance score
lies in the unit interval. -/
lemma checkNovelty_bounds (results : List MemoryResult) (content : Str)
    (h : ∀ m ∈ results, 0 ≤ m.relevanceScore ∧ m.relevanceScore ≤ 1) :
    0 ≤ checkNoveltyFromResults results content ∧
      checkNoveltyFromResults results content ≤ 10 := by
  by_cases hc : content.length < 20
  · constructor <;> simp [checkNoveltyFromResults, hc] <;> norm_num
  · by_cases he : results.length = 0
    · simp [checkNoveltyFromResults, hc, he]
    · have hlen : 0 < (results.length : ℚ) := by
        have := Nat.pos_of_ne_zero he
        exact_mod_cast this
      obtain ⟨hs0, hs1⟩ := relevance_sum_bounds results h
      have havg0 : 0 ≤ (results.map fun r => r.relevanceScore).sum / results.length :=
        div_nonneg hs0 hlen.le
      have havg1 : (results.map fun r => r.relevanceScore).sum / results.length ≤ 1 :=
        (div_le_one hlen).mpr hs1
      obtain ⟨j0, j1⟩ := jsRound_bounds
        ((1 - (results.map fun r => r.relevanceScore).sum / results.length) * 10)
        (by linarith) (by linarith)
      simp only [checkNoveltyFromResults, if_neg hc, if_neg he]
      constructor
      · exact_mod_cast j0
      · exact_mod_cast j1

/-- For the dark-mode factor vector (emphasis 10, emotion 3, utility 8, time
0) the weighted score lands between 4 and 7 whatever the three
similarity-dependent factors are, as long as each is in 0..10. -/
lemma weighted_score_between (r c n : ℚ)
    (hr0 : 0 ≤ r) (hr1 : r ≤ 10) (hc0 : 0 ≤ c) (hc1 : c ≤ 10)
    (hn0 : 0 ≤ n) (hn1 : n ≤ 10) :
    4 ≤ calculateWeightedScore
        { explicit_emphasis := 10, emotional_weight := 3, future_utility := 8,
          repetition := r, time_sensitivity := 0, context_anchoring := c,
          novelty := n } ∧
      calculateWeightedScore
        { explicit_emphasis := 10, emotional_weight := 3, future_utility := 8,
          repetition := r, time_sensitivity := 0, context_anchoring := c,
          novelty := n } ≤ 7 := by
  unfold calculateWeightedScore
  have hx1 : (7/2 : ℚ) ≤ (10 * 2.0 + 3 * 1.5 + 8 * 1.8 + r * 1.3 + 0 * 1.5 +
      c * 1.2 + n * 1.0) / (10 * 2.0 + 10 * 1.5 + 10 * 1.8 + 10 * 1.3 +
      10 * 1.5 + 10 * 1.2 + 10 * 1.0) * 10 := by
    rw [div_mul_eq_mul_div, le_div_iff (by norm_num)]
    nlinarith
  have hx2 : (10 * 2.0 + 3 * 1.5 + 8 * 1.8 + r * 1.3 + 0 * 1.5 +
      c * 1.2 + n * 1.0) / (10 * 2.0 + 10 * 1.5 + 10 * 1.8 + 10 * 1.3 +
      10 * 1.5 + 10 * 1.2 + 10 * 1.0) * 10 < (15/2 : ℚ) := by
    rw [div_mul_eq_mul_div, div_lt_iff (by norm_num)]
    nlinarith
  have hlo : (4 : ℤ) ≤ jsRound ((10 * 2.0 + 3 * 1.5 + 8 * 1.8 + r * 1.3 +
      0 * 1.5 + c * 1.2 + n * 1.0) / (10 * 2.0 + 10 * 1.5 + 10 * 1.8 +
      10 * 1.3 + 10 * 1.5 + 10 * 1.2 + 10 * 1.0) * 10) := by
    rw [jsRound_eq_intFloor]
    exact Int.le_floor.mpr (by push_cast; linarith)
  have hhi : jsRound ((10 * 2.0 + 3 * 1.5 + 8 * 1.8 + r * 1.3 + 0 * 1.5 +
      c * 1.2 + n * 1.0) / (10 * 2.0 + 10 * 1.5 + 10 * 1.8 + 10 * 1.3 +
      10 * 1.5 + 10 * 1.2 + 10 * 1.0) * 10) ≤ 7 := by
    rw [jsRound_eq_intFloor]
    have h := Int.floor_lt.mpr (show (10 * 2.0 + 3 * 1.5 + 8 * 1.8 + r * 1.3 +
        0 * 1.5 + c * 1.2 + n * 1.0) / (10 * 2.0 + 10 * 1.5 + 10 * 1.8 +
        10 * 1.3 + 10 * 1.5 + 10 * 1.2 + 10 * 1.0) * 10 + 1/2 < ((8 : ℤ) : ℚ)
      by push_cast; linarith)
    omega
  constructor
  · simp only [le_min_iff]
    exact ⟨hlo, by norm_num⟩
  · exact le_trans (min_le_left _ _) hhi

/-! Claim theorems. -/

/-- C3: constructing the engine with a merged config whose
ephemeralThreshold is not below its explicitThreshold throws, and
updateConfig with such a threshold pair keeps both previous thresholds
while applying every other merged field. -/
theorem C3_threshold_validation :
    (∀ p : ScoringConfigPatch,
        (mergeConfig DEFAULT_SCORING_CONFIG p).ephemeralThreshold ≥
            (mergeConfig DEFAULT_SCORING_CONFIG p).explicitThreshold →
          ∃ e, mkMemoryScorer p = Except.error e) ∧
    (∀ (cfg : ScoringConfig) (p : ScoringConfigPatch),
        (mergeConfig cfg p).ephemeralThreshold ≥
            (mergeConfig cfg p).explicitThreshold →
          updateConfig cfg p =
            { mergeConfig cfg p with
              ephemeralThreshold := cfg.ephemeralThreshold
              explicitThreshold := cfg.explicitThreshold }) := by
  constructor
  · intro p hbad
    unfold mkMemoryScorer
    rw [if_pos hbad]
    exact ⟨_, rfl⟩
  · intro cfg p hbad
    unfold updateConfig
    rw [if_pos hbad]

/-- C3 witness: a patch raising ephemeralThreshold to 9 against the default
explicitThreshold 8 makes construction fail and makes updateConfig keep the
previous 4/8 pair while the patched field set is otherwise applied. -/
theorem C3_threshold_validation_witness :
    (∃ e, mkMemoryScorer { ephemeralThreshold := Option.some 9 } = Except.error e) ∧
      updateConfig DEFAULT_SCORING_CONFIG
          { ephemeralThreshold := Option.some 9, defaultEphemeralHours := Option.some 48 } =
        { mergeConfig DEFAULT_SCORING_CONFIG
            { ephemeralThreshold := Option.some 9, defaultEphemeralHours := Option.some 48 } with
          ephemeralThreshold := DEFAULT_SCORING_CONFIG.ephemeralThreshold
          explicitThreshold := DEFAULT_SCORING_CONFIG.explicitThreshold } :=
  ⟨C3_threshold_validation.1 { ephemeralThreshold := Option.some 9 } (by decide),
    C3_threshold_validation.2 DEFAULT_SCORING_CONFIG
      { ephemeralThreshold := Option.some 9, defaultEphemeralHours := Option.some 48 }
      (by decide)⟩

/-- C4: calculateWeightedScore is the pure function
round((sum of factor x weight) / (sum of 10 x weight) x 10) capped at 10,
with weights 2, 3/2, 9/5, 13/10, 3/2, 6/5, 1 for emphasis, emotion,
utility, repetition, time, anchoring and novelty, and identical factor
vectors give identical integer results. -/
theorem C4_weighted_score_formula (f : ScoringFactors)
    (h : (0 ≤ f.explicit_emphasis ∧ f.explicit_emphasis ≤ 10) ∧
      (0 ≤ f.emotional_weight ∧ f.emotional_weight ≤ 10) ∧
      (0 ≤ f.future_utility ∧ f.future_utility ≤ 10) ∧
      (0 ≤ f.repetition ∧ f.repetition ≤ 10) ∧
      (0 ≤ f.time_sensitivity ∧ f.time_sensitivity ≤ 10) ∧
      (0 ≤ f.context_anchoring ∧ f.context_anchoring ≤ 10) ∧
      (0 ≤ f.novelty ∧ f.novelty ≤ 10)) (g : ScoringFactors) (hfg : g = f) :
    calculateWeightedScore f =
      min (jsRound ((f.explicit_emphasis * 2 + f.emotional_weight * (3/2) +
          f.future_utility * (9/5) + f.repetition * (13/10) +
          f.time_sensitivity * (3/2) + f.context_anchoring * (6/5) +
          f.novelty * 1) /
        (10 * 2 + 10 * (3/2) + 10 * (9/5) + 10 * (13/10) + 10 * (3/2) +
          10 * (6/5) + 10 * 1) * 10)) 10 ∧
      calculateWeightedScore g = calculateWeightedScore f := by
  refine ⟨?_, by rw [hfg]⟩
  unfold calculateWeightedScore
  norm_num

/-- C4 witness: the all-fives factor vector satisfies the bounds and the
formula (both sides evaluate to 5). -/
theorem C4_weighted_score_formula_witness :
    calculateWeightedScore
        { explicit_emphasis := 5, emotional_weight := 5, future_utility := 5,
          repetition := 5, time_sensitivity := 5, context_anchoring := 5,
          novelty := 5 } =
      min (jsRound (((5 : ℚ) * 2 + 5 * (3/2) + 5 * (9/5) + 5 * (13/10) +
          5 * (3/2) + 5 * (6/5) + 5 * 1) /
        (10 * 2 + 10 * (3/2) + 10 * (9/5) + 10 * (13/10) + 10 * (3/2) +
          10 * (6/5) + 10 * 1) * 10)) 10 ∧
      calculateWeightedScore
          { explicit_emphasis := 5, emotional_weight := 5, future_utility := 5,
            repetition := 5, time_sensitivity := 5, context_anchoring := 5,
            novelty := 5 } =
        calculateWeightedScore
          { explicit_emphasis := 5, emotional_weight := 5, future_utility := 5,
            repetition := 5, time_sensitivity := 5, context_anchoring := 5,
            novelty := 5 } :=
  C4_weighted_score_formula
    { explicit_emphasis := 5, emotional_weight := 5, future_utility := 5,
      repetition := 5, time_sensitivity := 5, context_anchoring := 5,
      novelty := 5 }
    (by norm_num) _ rfl

/-- C5 counterexample: the threshold pair (ephemeral 0, explicit 8) is valid
for the engine's only enforced invariant, yet score 0 classifies as silent,
not ephemeral, refuting the claim that score 0 always yields tier
ephemeral for every valid threshold pair. -/
theorem C5_counterexample :
    ({ DEFAULT_SCORING_CONFIG with
        ephemeralThreshold := 0 } : ScoringConfig).ephemeralThreshold <
        ({ DEFAULT_SCORING_CONFIG with
            ephemeralThreshold := 0 } : ScoringConfig).explicitThreshold ∧
      determineTier { DEFAULT_SCORING_CONFIG with ephemeralThreshold := 0 } 0 =
        Tier.silent ∧
      determineTier { DEFAULT_SCORING_CONFIG with ephemeralThreshold := 0 } 0 ≠
        Tier.ephemeral := by
  refine ⟨by norm_num [DEFAULT_SCORING_CONFIG], ?_, ?_⟩ <;> decide

/-- C5 amended: the tier rule holds as stated for every score and threshold
pair; score 10 yields explicit whenever explicitThreshold is at most 10;
score 0 yields ephemeral whenever the valid pair also has a positive
ephemeralThreshold; and every score in the half-open interval from
ephemeralThreshold to explicitThreshold yields silent. -/
theorem C5_tier_classification (cfg : ScoringConfig) (score : ℤ) :
    (determineTier cfg score =
      if (score : ℚ) ≥ cfg.explicitThreshold then Tier.explicit
      else if (score : ℚ) ≥ cfg.ephemeralThreshold then Tier.silent
      else Tier.ephemeral) ∧
    (cfg.explicitThreshold ≤ 10 → determineTier cfg 10 = Tier.explicit) ∧
    (0 < cfg.ephemeralThreshold → cfg.ephemeralThreshold < cfg.explicitThreshold →
      determineTier cfg 0 = Tier.ephemeral) ∧
    (cfg.ephemeralThreshold ≤ (score : ℚ) → (score : ℚ) < cfg.explicitThreshold →
      determineTier cfg score = Tier.silent) := by
  refine ⟨rfl, ?_, ?_, ?_⟩
  · intro h10
    unfold determineTier
    rw [if_pos (by push_cast; linarith)]
  · intro h0 hlt
    unfold determineTier
    rw [if_neg (by push_cast; linarith), if_neg (by push_cast; linarith)]
  · intro hlo hhi
    unfold determineTier
    rw [if_neg (by linarith), if_pos hlo]

/-- C5 witness: with the default thresholds 4 and 8, score 10 is explicit,
score 0 is ephemeral and score 5 is silent. -/
theorem C5_tier_classification_witness :
    determineTier DEFAULT_SCORING_CONFIG 10 = Tier.explicit ∧
      determineTier DEFAULT_SCORING_CONFIG 0 = Tier.ephemeral ∧
      determineTier DEFAULT_SCORING_CONFIG 5 = Tier.silent :=
  ⟨(C5_tier_classification DEFAULT_SCORING_CONFIG 10).2.1 (by norm_num [DEFAULT_SCORING_CONFIG]),
    (C5_tier_classification DEFAULT_SCORING_CONFIG 0).2.2.1
      (by norm_num [DEFAULT_SCORING_CONFIG]) (by norm_num [DEFAULT_SCORING_CONFIG]),
    (C5_tier_classification DEFAULT_SCORING_CONFIG 5).2.2.2
      (by norm_num [DEFAULT_SCORING_CONFIG]) (by norm_num [DEFAULT_SCORING_CONFIG])⟩

/-- Future-utility formula as the claim words it, for comparison with the
source definition: only one bucket bonus applies (buckets tried in priority
order high, medium, low; first match wins) and the low penalty applies only
when the entire content is a low-utility phrase. -/
def predictFutureUtilityClaimC6 (content : Str)
    (segments : List ConversationSegment) : ℚ :=
  if content.length < 20 then 5
  else
    let lowerContent := toLowerStr content
    let bucket : ℤ :=
      if highUtilityWords.any (fun w => strIncludes w lowerContent) then 2
      else if mediumUtilityWords.any (fun w => strIncludes w lowerContent) then 1
      else if lowUtilityWords.any (fun w => lowerContent == w) then -2
      else 0
    let s : ℤ := 5 + bucket + (if 3 < segments.length then 1 else 0)
    ((max 0 (min s 10) : ℤ) : ℚ)

/-- C6 input: a 28-character content containing both a high-utility keyword
(prefer) and a medium-utility keyword (note). -/
def c6Content : Str := "I prefer to note things down".data

/-- C6 counterexample: on a content with both a high- and a medium-utility
keyword the source adds both bonuses (5+2+1 = 8) while the claim's
one-bucket-only formula gives 7, so the claim is false at this input. -/
theorem C6_counterexample :
    20 ≤ c6Content.length ∧
      predictFutureUtility c6Content [{ content := c6Content, role := Role.user }] = 8 ∧
      predictFutureUtilityClaimC6 c6Content [{ content := c6Content, role := Role.user }] = 7 ∧
      predictFutureUtility c6Content [{ content := c6Content, role := Role.user }] ≠
        predictFutureUtilityClaimC6 c6Content [{ content := c6Content, role := Role.user }] := by
  refine ⟨?_, ?_, ?_, ?_⟩ <;> decide

/-- C6 amended: for content of at least 20 characters the future-utility
factor is 5, plus 2 when a high-utility keyword occurs, plus 1 additionally
and independently when a medium-utility keyword occurs, minus 2 when the
content equals a low-utility phrase or starts with one followed by a space
(checked independently of the other buckets), plus 1 when the conversation
has more than 3 segments, clamped to 0..10. -/
theorem C6_future_utility_formula (content : Str)
    (segments : List ConversationSegment) (h : 20 ≤ content.length) :
    predictFutureUtility content segments =
      ((max 0 (min (5 +
          (if highUtilityWords.any (fun w => strIncludes w (toLowerStr content))
            then 2 else 0) +
          (if mediumUtilityWords.any (fun w => strIncludes w (toLowerStr content))
            then 1 else 0) -
          (if lowUtilityWords.any (fun w => toLowerStr content == w ||
              listStartsWith (w ++ [' ']) (toLowerStr content))
            then 2 else 0) +
          (if 3 < segments.length then 1 else 0)) 10) : ℤ) : ℚ) := by
  have hnot : ¬ content.length < 20 := by omega
  simp only [predictFutureUtility, if_neg hnot]
  split_ifs <;> norm_num

/-- C6 witness: the amended formula evaluated on the counterexample content
(high and medium keywords both present, one segment) gives 8. -/
theorem C6_future_utility_formula_witness :
    predictFutureUtility c6Content [{ content := c6Content, role := Role.user }] =
      ((max 0 (min (5 +
          (if highUtilityWords.any (fun w => strIncludes w (toLowerStr c6Content))
            then 2 else 0) +
          (if mediumUtilityWords.any (fun w => strIncludes w (toLowerStr c6Content))
            then 1 else 0) -
          (if lowUtilityWords.any (fun w => toLowerStr c6Content == w ||
              listStartsWith (w ++ [' ']) (toLowerStr c6Content))
            then 2 else 0) +
          (if 3 < ([{ content := c6Content, role := Role.user }] :
              List ConversationSegment).length then 1 else 0)) 10) : ℤ) : ℚ) :=
  C6_future_utility_formula c6Content [{ content := c6Content, role := Role.user }]
    (by decide)

/-- C1 input: a 43-character content with no explicit marker. -/
def c1Segments : List ConversationSegment :=
  [{ content := "The quick brown fox jumps over the lazy dog".data, role := Role.user }]

/-- C1 counterexample: when the shared recall call fails the pipeline keeps
the empty result list, and the three similarity-dependent factors evaluate
to 0, 0 and 10 — not to the claimed fallback value 3 (novelty in
particular is 10). -/
theorem C1_counterexample :
    20 ≤ (joinWith '\n' (c1Segments.map fun s => s.content)).length ∧
      recallResultsFor (joinWith '\n' (c1Segments.map fun s => s.content))
        (Except.error "recall failed") = [] ∧
      checkRepetitionFromResults [] c1Segments = 0 ∧
      checkContextAnchoringFromResults [] = 0 ∧
      checkNoveltyFromResults []
        (joinWith '\n' (c1Segments.map fun s => s.content)) = 10 ∧
      checkNoveltyFromResults []
        (joinWith '\n' (c1Segments.map fun s => s.content)) ≠ 3 ∧
      checkRepetitionFromResults [] c1Segments ≠ 3 := by
  refine ⟨?_, ?_, ?_, ?_, ?_, ?_, ?_⟩ <;> decide

/-- C1 amended: a failing recall call never fails scoring — the whole
scoring result equals the one computed from an empty recall result set, in
which the repetition and context-anchoring factors contribute 0 and the
novelty factor contributes 10 (for the content of at least 20 characters
that triggers a recall call at all). -/
theorem C1_recall_failure_defaults (cfg : ScoringConfig)
    (segments : List ConversationSegment) (e : String) (out : ModelCallOutcome)
    (content : Str) (h : 20 ≤ content.length) :
    scoreConversation cfg segments (Except.error e) out =
        scoreConversation cfg segments (Except.ok []) out ∧
      checkRepetitionFromResults [] segments = 0 ∧
      checkContextAnchoringFromResults [] = 0 ∧
      checkNoveltyFromResults [] content = 10 := by
  have hrec : ∀ full : Str, recallResultsFor full (Except.error e) =
      recallResultsFor full (Except.ok ([] : List MemoryResult)) := by
    intro full
    unfold recallResultsFor
    split <;> rfl
  have hheu : heuristicScore cfg segments (Except.error e) =
      heuristicScore cfg segments (Except.ok ([] : List MemoryResult)) := by
    simp only [heuristicScore, hrec]
  refine ⟨?_, ?_, rfl, ?_⟩
  · unfold scoreConversation
    rw [hheu]
  · simp [checkRepetitionFromResults]
  · have hnot : ¬ content.length < 20 := by omega
    unfold checkNoveltyFromResults
    rw [if_neg hnot]
    rfl

/-- C1 witness: instantiated at the 43-character fox content with the
default configuration. -/
theorem C1_recall_failure_defaults_witness :
    scoreConversation DEFAULT_SCORING_CONFIG c1Segments
        (Except.error "recall failed") (ModelCallOutcome.fetchError "unused") =
      scoreConversation DEFAULT_SCORING_CONFIG c1Segments
        (Except.ok []) (ModelCallOutcome.fetchError "unused") ∧
    checkRepetitionFromResults [] c1Segments = 0 ∧
    checkContextAnchoringFromResults [] = 0 ∧
    checkNoveltyFromResults []
      "The quick brown fox jumps over the lazy dog".data = 10 :=
  C1_recall_failure_defaults DEFAULT_SCORING_CONFIG c1Segments "recall failed"
    (ModelCallOutcome.fetchError "unused")
    "The quick brown fox jumps over the lazy dog".data (by decide)

/-- C7 input: the engine disabled with the default silent fallback tier. -/
def c7DisabledConfig : ScoringConfig :=
  { DEFAULT_SCORING_CONFIG with enabled := false }

/-- C7 input segment. -/
def c7Segment : ConversationSegment :=
  { content := "We moved the standup to ten on Mondays".data, role := Role.user }

/-- C7 counterexample: the disabled fast path returns tier silent with no
expiresInHours at all, refuting the claim that every ScoringResult from
scoreConversation carries defaultSilentDays x 24 hours when its tier is
silent. -/
theorem C7_counterexample :
    (scoreConversation c7DisabledConfig [c7Segment] (Except.ok [])
        (ModelCallOutcome.fetchError "offline")).tier = Tier.silent ∧
      (scoreConversation c7DisabledConfig [c7Segment] (Except.ok [])
          (ModelCallOutcome.fetchError "offline")).expiresInHours = Option.none ∧
      (scoreConversation c7DisabledConfig [c7Segment] (Except.ok [])
          (ModelCallOutcome.fetchError "offline")).expiresInHours ≠
        Option.some (c7DisabledConfig.defaultSilentDays * 24) := by
  refine ⟨?_, ?_, ?_⟩ <;> decide

/-- C7 amended: the claimed expiry mapping holds for every result of the
full heuristic pipeline and of a successful external-model call
(expiresInHours is defaultEphemeralHours for tier ephemeral,
defaultSilentDays x 24 for tier silent, absent for tier explicit), but the
disabled fast path and the trivial-conversation gate return silent or
ephemeral results with no expiresInHours. -/
theorem C7_expiry_mapping (cfg : ScoringConfig)
    (segments : List ConversationSegment)
    (recallOutcome : Except String (List MemoryResult)) (out : ModelCallOutcome)
    (fullContent : Str) (sc : Option ℚ) (tl rs : Option String) (r : ScoringResult) :
    ((heuristicScore cfg segments recallOutcome).expiresInHours =
      expiresForTier cfg (heuristicScore cfg segments recallOutcome).tier) ∧
    (scoreWithLocalModel cfg fullContent (ModelCallOutcome.parsed sc tl rs) =
        Except.ok r →
      r.expiresInHours = expiresForTier cfg r.tier) ∧
    (∀ tier : Tier,
      (tier = Tier.ephemeral →
        expiresForTier cfg tier = Option.some cfg.defaultEphemeralHours) ∧
      (tier = Tier.silent →
        expiresForTier cfg tier = Option.some (cfg.defaultSilentDays * 24)) ∧
      (tier = Tier.explicit → expiresForTier cfg tier = Option.none)) ∧
    (cfg.enabled = false →
      (scoreConversation cfg segments recallOutcome out).expiresInHours =
        Option.none) ∧
    (cfg.enabled = true →
      ((((segments.map fun s => s.content.length).sum : ℚ) <
            cfg.minConversationLength ∨
          ((segments.length : ℚ) < cfg.minMessageCount)) ∧
        detectExplicitMarkers (joinWith '\n' (segments.map fun s => s.content)) =
          false) →
      scoreConversation cfg segments recallOutcome out = trivialResult ∧
        trivialResult.expiresInHours = Option.none ∧
        trivialResult.tier = Tier.ephemeral) := by
  refine ⟨rfl, ?_, ?_, ?_, ?_⟩
  · intro hok
    simp only [scoreWithLocalModel, Except.ok.injEq] at hok
    subst hok
    rfl
  · intro tier
    refine ⟨?_, ?_, ?_⟩ <;> intro htier <;> subst htier <;> rfl
  · intro hdis
    unfold scoreConversation
    rw [if_pos hdis]
    rfl
  · intro hen hgate
    refine ⟨?_, rfl, rfl⟩
    unfold scoreConversation
    rw [if_neg (by simp [hen]), if_pos hgate]

/-- C7 witness: instantiated for the disabled default configuration and a
concrete parsed model response with score 6 (tier silent under the default
thresholds, expiry 720 hours), discharging the model-path and
disabled-path hypotheses. -/
theorem C7_expiry_mapping_witness :
    (heuristicScore c7DisabledConfig [c7Segment]
        (Except.ok [])).expiresInHours =
      expiresForTier c7DisabledConfig
        (heuristicScore c7DisabledConfig [c7Segment] (Except.ok [])).tier ∧
      ({ score := 6, tier := Tier.silent,
          reasoning := "[LLM] No reasoning provided",
          expiresInHours := Option.some 720,
          recommendedAction := Action.store_silent } : ScoringResult).expiresInHours =
        expiresForTier c7DisabledConfig
          ({ score := 6, tier := Tier.silent,
              reasoning := "[LLM] No reasoning provided",
              expiresInHours := Option.some 720,
              recommendedAction := Action.store_silent } : ScoringResult).tier ∧
      (scoreConversation c7DisabledConfig [c7Segment] (Except.ok [])
          (ModelCallOutcome.fetchError "offline")).expiresInHours = Option.none :=
  ⟨(C7_expiry_mapping c7DisabledConfig [c7Segment] (Except.ok [])
      (ModelCallOutcome.fetchError "offline")
      "We moved the standup to ten on Mondays".data (Option.some 6)
      Option.none Option.none
      { score := 6, tier := Tier.silent,
        reasoning := "[LLM] No reasoning provided",
        expiresInHours := Option.some 720,
        recommendedAction := Action.store_silent }).1,
    (C7_expiry_mapping c7DisabledConfig [c7Segment] (Except.ok [])
      (ModelCallOutcome.fetchError "offline")
      "We moved the standup to ten on Mondays".data (Option.some 6)
      Option.none Option.none
      { score := 6, tier := Tier.silent,
        reasoning := "[LLM] No reasoning provided",
        expiresInHours := Option.some 720,
        recommendedAction := Action.store_silent }).2.1 (by with_unfolding_all decide),
    (C7_expiry_mapping c7DisabledConfig [c7Segment] (Except.ok [])
      (ModelCallOutcome.fetchError "offline")
      "We moved the standup to ten on Mondays".data (Option.some 6)
      Option.none Option.none
      { score := 6, tier := Tier.silent,
        reasoning := "[LLM] No reasoning provided",
        expiresInHours := Option.some 720,
        recommendedAction := Action.store_silent }).2.2.2.1 rfl⟩

/-- Changing only the scoringModel field of the config does not change the
heuristic path, which never reads that field. -/
lemma heuristicScore_model_irrelevant (cfg : ScoringConfig)
    (x : Option ScoringModelConfig) (segments : List ConversationSegment)
    (recallOutcome : Except String (List MemoryResult)) :
    heuristicScore { cfg with scoringModel := x } segments recallOutcome =
      heuristicScore cfg segments recallOutcome := rfl

/-- C2 input: a configuration with a llama.cpp scoring model configured. -/
def c2ModelConfig : ScoringConfig :=
  { DEFAULT_SCORING_CONFIG with
    scoringModel := Option.some { provider := Provider.llamacpp } }

/-- C2 input: a 55-character content with no explicit marker. -/
def c2Content : Str :=
  "My build pipeline needs the staging credentials rotated".data

/-- C2 input segments. -/
def c2Segments : List ConversationSegment :=
  [{ content := c2Content, role := Role.user }]

/-- C2 counterexample: a successfully parsed model response whose JSON is
missing the score field is not treated as an error — scoreWithLocalModel
returns a model-path result with the score silently defaulted to 5 (tier
silent), while the heuristic pipeline for the same invocation yields score
2 (tier ephemeral), so the call is neither abandoned nor does the engine
fall back for this missing-field case. -/
theorem C2_counterexample :
    scoreWithLocalModel c2ModelConfig c2Content
        (ModelCallOutcome.parsed Option.none (Option.some "silent") Option.none) =
      Except.ok
        { score := 5, tier := Tier.silent,
          reasoning := "[LLM] No reasoning provided",
          expiresInHours := Option.some 720,
          recommendedAction := Action.store_silent } ∧
      (scoreConversation c2ModelConfig c2Segments (Except.ok [])
          (ModelCallOutcome.parsed Option.none (Option.some "silent")
            Option.none)).score = 5 ∧
      (scoreConversation c2ModelConfig c2Segments (Except.ok [])
          (ModelCallOutcome.parsed Option.none (Option.some "silent")
            Option.none)).tier = Tier.silent ∧
      (scoreConversation { c2ModelConfig with scoringModel := Option.none }
          c2Segments (Except.ok [])
          (ModelCallOutcome.parsed Option.none (Option.some "silent")
            Option.none)).score = 2 ∧
      (scoreConversation { c2ModelConfig with scoringModel := Option.none }
          c2Segments (Except.ok [])
          (ModelCallOutcome.parsed Option.none (Option.some "silent")
            Option.none)).tier = Tier.ephemeral ∧
      scoreConversation c2ModelConfig c2Segments (Except.ok [])
          (ModelCallOutcome.parsed Option.none (Option.some "silent")
            Option.none) ≠
        scoreConversation { c2ModelConfig with scoringModel := Option.none }
          c2Segments (Except.ok [])
          (ModelCallOutcome.parsed Option.none (Option.some "silent")
            Option.none) := by
  have hjoin2 : joinWith '\n' (c2Segments.map fun s => s.content) = c2Content :=
    rfl
  have hmodel : scoreWithLocalModel c2ModelConfig c2Content
      (ModelCallOutcome.parsed Option.none (Option.some "silent") Option.none) =
      Except.ok
        { score := 5, tier := Tier.silent,
          reasoning := "[LLM] No reasoning provided",
          expiresInHours := Option.some 720,
          recommendedAction := Action.store_silent } := by
    with_unfolding_all decide
  have hconv : scoreConversation c2ModelConfig c2Segments (Except.ok [])
      (ModelCallOutcome.parsed Option.none (Option.some "silent") Option.none) =
      { score := 5, tier := Tier.silent,
        reasoning := "[LLM] No reasoning provided",
        expiresInHours := Option.some 720,
        recommendedAction := Action.store_silent } := by
    with_unfolding_all rfl
  have hsc2 : scoreConversation { c2ModelConfig with scoringModel := Option.none }
      c2Segments (Except.ok [])
      (ModelCallOutcome.parsed Option.none (Option.some "silent") Option.none) =
      heuristicScore { c2ModelConfig with scoringModel := Option.none }
        c2Segments (Except.ok []) := by
    with_unfolding_all rfl
  have hrr2 : recallResultsFor c2Content (Except.ok ([] : List MemoryResult)) =
      [] := by decide
  have hhigh2 : detectExplicitMarkers c2Content = false := by decide
  have hemo2 : detectEmotionalContent c2Content = 2 := by decide
  have htime2 : detectTimeSensitivity c2Content = 0 := by decide
  have hfut2 : predictFutureUtility c2Content c2Segments = 7 := by decide
  have hrep2 : checkRepetitionFromResults [] c2Segments = 0 := by decide
  have hctx2 : checkContextAnchoringFromResults [] = 0 := by decide
  have hnov2 : checkNoveltyFromResults [] c2Content = 10 := by decide
  have hfactors2 : heuristicFactors c2Segments
      (recallResultsFor c2Content (Except.ok [])) =
      { explicit_emphasis := 0, emotional_weight := 2, future_utility := 7,
        repetition := 0, time_sensitivity := 0, context_anchoring := 0,
        novelty := 10 } := by
    simp only [heuristicFactors, hjoin2, hrr2, hhigh2, hemo2, htime2, hfut2,
      hrep2, hctx2, hnov2, Bool.false_eq_true, if_false]
  have hscore2 : calculateWeightedScore
      { explicit_emphasis := 0, emotional_weight := 2, future_utility := 7,
        repetition := 0, time_sensitivity := 0, context_anchoring := 0,
        novelty := 10 } = 2 := by
    with_unfolding_all decide
  have htier2 : determineTier
      { c2ModelConfig with scoringModel := Option.none } 2 = Tier.ephemeral := by
    decide
  have hA : (scoreConversation c2ModelConfig c2Segments (Except.ok [])
      (ModelCallOutcome.parsed Option.none (Option.some "silent")
        Option.none)).score = 5 := by rw [hconv]
  have hB : (scoreConversation { c2ModelConfig with scoringModel := Option.none }
      c2Segments (Except.ok [])
      (ModelCallOutcome.parsed Option.none (Option.some "silent")
        Option.none)).score = 2 := by
    rw [hsc2, heuristicScore_score_def, hjoin2, hfactors2, hscore2]
  refine ⟨hmodel, hA, by rw [hconv], hB, ?_, ?_⟩
  · rw [hsc2, heuristicScore_tier_def, hjoin2, hfactors2, hscore2, htier2]
  · intro heq
    rw [heq, hB] at hA
    exact absurd hA (by decide)

/-- C2 amended: every failing external-model call — timeout or network
failure, non-2xx response, malformed envelope or inner JSON, missing
message content — makes scoreWithLocalModel throw, and scoreConversation
then returns exactly what an engine without a configured model would
return for the same invocation (the transparent heuristic fallback, same
ScoringResult type, no observable error); a successfully parsed response
JSON that lacks the score field is however not an error: the score
silently defaults to 5 and a model-path result is returned. -/
theorem C2_model_failure_fallback (cfg : ScoringConfig)
    (segments : List ConversationSegment)
    (recallOutcome : Except String (List MemoryResult)) (out : ModelCallOutcome)
    (tierLabel reasoning : Option String)
    (h : isModelFailure out = true) :
    ((∃ e, scoreWithLocalModel cfg
        (joinWith '\n' (segments.map fun s => s.content)) out =
          Except.error e) ∧
      scoreConversation cfg segments recallOutcome out =
        scoreConversation { cfg with scoringModel := Option.none } segments
          recallOutcome out) ∧
    (∃ r, scoreWithLocalModel cfg
        (joinWith '\n' (segments.map fun s => s.content))
        (ModelCallOutcome.parsed Option.none tierLabel reasoning) =
          Except.ok r ∧ r.score = 5) := by
  refine ⟨⟨?_, ?_⟩, ?_⟩
  · cases out with
    | parsed sc tl rs => simp [isModelFailure] at h
    | fetchError msg => exact ⟨_, rfl⟩
    | httpError st b => exact ⟨_, rfl⟩
    | badEnvelopeJson => exact ⟨_, rfl⟩
    | emptyContent => exact ⟨_, rfl⟩
    | badContentJson => exact ⟨_, rfl⟩
  · rcases hsm : cfg.scoringModel with _ | m
    · cases out <;> (simp only [scoreConversation, hsm]; rfl)
    · cases out with
      | parsed sc tl rs => simp [isModelFailure] at h
      | fetchError msg =>
          simp only [scoreConversation, hsm]
          split_ifs <;> rfl
      | httpError st b =>
          simp only [scoreConversation, hsm]
          split_ifs <;> rfl
      | badEnvelopeJson =>
          simp only [scoreConversation, hsm]
          split_ifs <;> rfl
      | emptyContent =>
          simp only [scoreConversation, hsm]
          split_ifs <;> rfl
      | badContentJson =>
          simp only [scoreConversation, hsm]
          split_ifs <;> rfl
  · refine ⟨_, rfl, ?_⟩
    show max 0 (min 10 (jsRound (jsScoreOrFive Option.none))) = 5
    with_unfolding_all decide

/-- C2 witness: with a configured model and a refused connection, scoring
returns exactly the heuristic result of the model-less engine, while a
parsed response without a score field yields a model result scored 5. -/
theorem C2_model_failure_fallback_witness :
    ((∃ e, scoreWithLocalModel c2ModelConfig
        (joinWith '\n' (c2Segments.map fun s => s.content))
        (ModelCallOutcome.fetchError "connection refused") = Except.error e) ∧
      scoreConversation c2ModelConfig c2Segments (Except.ok [])
          (ModelCallOutcome.fetchError "connection refused") =
        scoreConversation { c2ModelConfig with scoringModel := Option.none }
          c2Segments (Except.ok [])
          (ModelCallOutcome.fetchError "connection refused")) ∧
    (∃ r, scoreWithLocalModel c2ModelConfig
        (joinWith '\n' (c2Segments.map fun s => s.content))
        (ModelCallOutcome.parsed Option.none (Option.some "silent")
          Option.none) = Except.ok r ∧ r.score = 5) :=
  C2_model_failure_fallback c2ModelConfig c2Segments (Except.ok [])
    (ModelCallOutcome.fetchError "connection refused") (Option.some "silent")
    Option.none rfl

/-- C10: in the external-model path the explicit-marker override still
applies — whenever the concatenated content contains an emphasis marker, a
successfully parsed model response yields recommendedAction
store_explicit whatever score the model returned (hence also when the
re-derived tier is silent or ephemeral). -/
theorem C10_model_path_override (cfg : ScoringConfig)
    (segments : List ConversationSegment)
    (recallOutcome : Except String (List MemoryResult))
    (m : ScoringModelConfig) (sc : Option ℚ) (tl rs : Option String)
    (hEn : cfg.enabled = true) (hm : cfg.scoringModel = Option.some m)
    (hp : m.provider ≠ Provider.none)
    (hMark : detectExplicitMarkers (joinWith '\n' (segments.map fun s => s.content)) =
      true) :
    (scoreConversation cfg segments recallOutcome
        (ModelCallOutcome.parsed sc tl rs)).recommendedAction =
      Action.store_explicit := by
  unfold scoreConversation
  rw [if_neg (by simp [hEn]), if_neg (fun hc => absurd hc.2 (by simp [hMark])), hm]
  dsimp only
  rw [if_pos hp]
  simp only [scoreWithLocalModel]
  simp [determineAction, hMark]

/-- C10 witness: a model response with score 2 (tier ephemeral under the
default thresholds) on a conversation asking to remember still recommends
store_explicit. -/
theorem C10_model_path_override_witness :
    (scoreConversation
        { DEFAULT_SCORING_CONFIG with
          scoringModel := Option.some { provider := Provider.llamacpp } }
        [{ content := "Remember that my API keys rotate every ninety days".data,
           role := Role.user }]
        (Except.ok [])
        (ModelCallOutcome.parsed (Option.some 2) Option.none
          Option.none)).recommendedAction = Action.store_explicit :=
  C10_model_path_override
    { DEFAULT_SCORING_CONFIG with
      scoringModel := Option.some { provider := Provider.llamacpp } }
    [{ content := "Remember that my API keys rotate every ninety days".data,
       role := Role.user }]
    (Except.ok []) { provider := Provider.llamacpp } (Option.some 2)
    Option.none Option.none rfl rfl (by decide) (by decide)

/-- Whether one record makes it through the reinforcement loop body with an
increment: its getRelated call succeeds with at least one neighbor and its
update call succeeds. -/
def promotedSuccessfully (getRelatedOutcome : String → Except String (List MemoryResult))
    (updateOutcome : MemoryResult → Except String Unit) (memory : MemoryResult) : Bool :=
  match getRelatedOutcome memory.id with
  | Except.error _ => false
  | Except.ok related =>
      if related.length > 0 then
        match updateOutcome memory with
        | Except.error _ => false
        | Except.ok _ => true
      else false

/-- The fold of the reinforcement loop counts exactly the successfully
promoted records, whatever failures occur in between. -/
lemma foldl_reinforceStep (getRelatedOutcome : String → Except String (List MemoryResult))
    (updateOutcome : MemoryResult → Except String Unit) :
    ∀ (mems : List MemoryResult) (n : ℕ),
      mems.foldl (reinforceStep getRelatedOutcome updateOutcome) n =
        n + (mems.filter (promotedSuccessfully getRelatedOutcome updateOutcome)).length := by
  intro mems
  induction mems with
  | nil => intro n; simp
  | cons a t ih =>
    intro n
    have hstep : reinforceStep getRelatedOutcome updateOutcome n a =
        if promotedSuccessfully getRelatedOutcome updateOutcome a then n + 1 else n := by
      unfold reinforceStep promotedSuccessfully
      cases getRelatedOutcome a.id with
      | error e => simp
      | ok related =>
          by_cases hrel : related.length > 0
          · simp only [if_pos hrel]
            cases updateOutcome a <;> simp
          · simp [hrel]
    by_cases hp : promotedSuccessfully getRelatedOutcome updateOutcome a = true
    · rw [List.foldl_cons, hstep, if_pos hp, List.filter_cons, if_pos hp, ih,
        List.length_cons]
      omega
    · rw [List.foldl_cons, hstep, if_neg hp, List.filter_cons, if_neg hp, ih]

/-- C9 inputs: five ephemeral records with ids 1..5. -/
def c9Record (n : String) : MemoryResult :=
  { id := n, content := "user keeps refining the deployment checklist".data,
    relevanceScore := 0,
    metadata := { tier := Tier.ephemeral, score := 2,
                  source := MemorySource.auto_capture, reinforcementCount := 0 } }

/-- C9 getRelated oracle: fails for record 3 only, finds one neighbor for
every other record. -/
def c9GetRelated : String → Except String (List MemoryResult) :=
  fun id => if id = "3" then Except.error "network error"
    else Except.ok [c9Record "related"]

/-- C9 update oracle: every update succeeds. -/
def c9Update : MemoryResult → Except String Unit := fun _ => Except.ok ()

/-- C9: the reinforcement sweep processes each listed record in isolation —
for every batch and every pattern of per-record getRelated/update outcomes
the upgraded count is exactly the number of successfully promoted records
(failures on other records never abort the batch), and in the concrete
5-record scenario where getRelated fails only for record 3, the four other
records are attempted and reported (upgraded = 4). -/
theorem C9_partial_failure_isolation :
    (∀ (mems : List MemoryResult)
        (getRelatedOutcome : String → Except String (List MemoryResult))
        (updateOutcome : MemoryResult → Except String Unit),
      processReinforcements (Except.ok mems) getRelatedOutcome updateOutcome =
        ((mems.filter (promotedSuccessfully getRelatedOutcome updateOutcome)).length,
          0)) ∧
    processReinforcements
        (Except.ok [c9Record "1", c9Record "2", c9Record "3", c9Record "4",
          c9Record "5"])
        c9GetRelated c9Update = (4, 0) ∧
    (([c9Record "1", c9Record "2", c9Record "3", c9Record "4",
        c9Record "5"].filter (promotedSuccessfully c9GetRelated c9Update)).map
      fun m => m.id) = ["1", "2", "4", "5"] := by
  refine ⟨?_, ?_, ?_⟩
  · intro mems getRelatedOutcome updateOutcome
    show (mems.foldl (reinforceStep getRelatedOutcome updateOutcome) 0, 0) = _
    rw [foldl_reinforceStep]
    simp
  · decide
  · decide

/-- C8 input: the round-trip scenario content. -/
def darkModeContent : Str :=
  "I really love dark mode, please remember this forever".data

/-- C8 input: the scenario conversation, one user segment. -/
def darkModeSegments : List ConversationSegment :=
  [{ content := darkModeContent, role := Role.user }]

/-- C8 counterexample: with the default configuration and an empty recall
result the round-trip scenario scores 5 and classifies as silent, not
explicit — the tier=explicit half of the claim is false (the action
override half does hold and is proven in the amended theorem). -/
theorem C8_counterexample :
    (scoreConversation DEFAULT_SCORING_CONFIG darkModeSegments (Except.ok [])
        (ModelCallOutcome.fetchError "unused")).tier = Tier.silent ∧
      (scoreConversation DEFAULT_SCORING_CONFIG darkModeSegments (Except.ok [])
          (ModelCallOutcome.fetchError "unused")).tier ≠ Tier.explicit := by
  have hjoin : joinWith '\n' (darkModeSegments.map fun s => s.content) =
      darkModeContent := rfl
  have hsc : scoreConversation DEFAULT_SCORING_CONFIG darkModeSegments
      (Except.ok []) (ModelCallOutcome.fetchError "unused") =
      heuristicScore DEFAULT_SCORING_CONFIG darkModeSegments (Except.ok []) := by
    with_unfolding_all rfl
  have hrr : recallResultsFor darkModeContent
      (Except.ok ([] : List MemoryResult)) = [] := by decide
  have hhigh : detectExplicitMarkers darkModeContent = true := by decide
  have hemo : detectEmotionalContent darkModeContent = 3 := by decide
  have htime : detectTimeSensitivity darkModeContent = 0 := by decide
  have hfut : predictFutureUtility darkModeContent darkModeSegments = 8 := by
    decide
  have hrep : checkRepetitionFromResults [] darkModeSegments = 0 := by decide
  have hctx : checkContextAnchoringFromResults [] = 0 := by decide
  have hnov : checkNoveltyFromResults [] darkModeContent = 10 := by decide
  have hfactors : heuristicFactors darkModeSegments
      (recallResultsFor darkModeContent (Except.ok [])) =
      { explicit_emphasis := 10, emotional_weight := 3, future_utility := 8,
        repetition := 0, time_sensitivity := 0, context_anchoring := 0,
        novelty := 10 } := by
    simp only [heuristicFactors, hjoin, hrr, hhigh, hemo, htime, hfut, hrep,
      hctx, hnov, if_true]
  have hscore : calculateWeightedScore
      { explicit_emphasis := 10, emotional_weight := 3, future_utility := 8,
        repetition := 0, time_sensitivity := 0, context_anchoring := 0,
        novelty := 10 } = 5 := by
    with_unfolding_all decide
  have htier : determineTier DEFAULT_SCORING_CONFIG 5 = Tier.silent := by decide
  rw [hsc, heuristicScore_tier_def, hjoin, hfactors, hscore, htier]
  exact ⟨rfl, by decide⟩

/-- With the default thresholds 4 and 8 every score between 4 and 7
classifies as silent. -/
lemma determineTier_default_silent (s : ℤ) (h4 : 4 ≤ s) (h7 : s ≤ 7) :
    determineTier DEFAULT_SCORING_CONFIG s = Tier.silent := by
  unfold determineTier
  split_ifs with h1 h2
  · exfalso
    have hq : (8 : ℚ) ≤ (s : ℚ) := by
      simpa [DEFAULT_SCORING_CONFIG] using h1
    have : (8 : ℤ) ≤ s := by exact_mod_cast hq
    omega
  · rfl
  · exfalso
    apply h2
    have : (4 : ℚ) ≤ (s : ℚ) := by exact_mod_cast h4
    simpa [DEFAULT_SCORING_CONFIG] using this

/-- C8 amended: for the round-trip content the explicit-emphasis marker
fires and the recommended action is store_explicit whatever the storage
collaborator's recall produces; but the tier is silent, not explicit, for
every recall outcome whose relevance scores lie in the contractual unit
interval (errors and empty results included). -/
theorem C8_dark_mode_scenario (recallOutcome : Except String (List MemoryResult))
    (out : ModelCallOutcome)
    (h : ∀ m ∈ recallResultsFor darkModeContent recallOutcome,
        0 ≤ m.relevanceScore ∧ m.relevanceScore ≤ 1) :
    detectExplicitMarkers darkModeContent = true ∧
      (scoreConversation DEFAULT_SCORING_CONFIG darkModeSegments recallOutcome
          out).recommendedAction = Action.store_explicit ∧
      (scoreConversation DEFAULT_SCORING_CONFIG darkModeSegments recallOutcome
          out).tier = Tier.silent := by
  have hjoin : joinWith '\n' (darkModeSegments.map fun s => s.content) =
      darkModeContent := rfl
  have hsc : scoreConversation DEFAULT_SCORING_CONFIG darkModeSegments
      recallOutcome out =
      heuristicScore DEFAULT_SCORING_CONFIG darkModeSegments recallOutcome := by
    with_unfolding_all rfl
  have hhigh : detectExplicitMarkers darkModeContent = true := by decide
  have hemo : detectEmotionalContent darkModeContent = 3 := by decide
  have htime : detectTimeSensitivity darkModeContent = 0 := by decide
  have hfut : predictFutureUtility darkModeContent darkModeSegments = 8 := by
    decide
  have hfactors : heuristicFactors darkModeSegments
      (recallResultsFor darkModeContent recallOutcome) =
      { explicit_emphasis := 10, emotional_weight := 3, future_utility := 8,
        repetition := checkRepetitionFromResults
          (recallResultsFor darkModeContent recallOutcome) darkModeSegments,
        time_sensitivity := 0,
        context_anchoring := checkContextAnchoringFromResults
          (recallResultsFor darkModeContent recallOutcome),
        novelty := checkNoveltyFromResults
          (recallResultsFor darkModeContent recallOutcome) darkModeContent } := by
    simp only [heuristicFactors, hjoin, hhigh, hemo, htime, hfut, if_true]
  obtain ⟨hr0, hr1⟩ := checkRepetition_bounds
    (recallResultsFor darkModeContent recallOutcome) darkModeSegments h
  obtain ⟨hc0, hc1⟩ := checkContextAnchoring_bounds
    (recallResultsFor darkModeContent recallOutcome)
  obtain ⟨hn0, hn1⟩ := checkNovelty_bounds
    (recallResultsFor darkModeContent recallOutcome) darkModeContent h
  obtain ⟨hs4, hs7⟩ := weighted_score_between _ _ _ hr0 hr1 hc0 hc1 hn0 hn1
  have htier : determineTier DEFAULT_SCORING_CONFIG (calculateWeightedScore
      (heuristicFactors darkModeSegments
        (recallResultsFor darkModeContent recallOutcome))) = Tier.silent := by
    rw [hfactors]
    exact determineTier_default_silent _ hs4 hs7
  refine ⟨hhigh, ?_, ?_⟩
  · rw [hsc, heuristicScore_action_def, hjoin, htier, hhigh]
    decide
  · rw [hsc, heuristicScore_tier_def, hjoin, htier]

/-- C8 witness: instantiated at a failing recall call (giving the empty
result set, whose relevance bound holds vacuously). -/
theorem C8_dark_mode_scenario_witness :
    detectExplicitMarkers darkModeContent = true ∧
      (scoreConversation DEFAULT_SCORING_CONFIG darkModeSegments
          (Except.error "recall unavailable")
          (ModelCallOutcome.fetchError "unused")).recommendedAction =
        Action.store_explicit ∧
      (scoreConversation DEFAULT_SCORING_CONFIG darkModeSegments
          (Except.error "recall unavailable")
          (ModelCallOutcome.fetchError "unused")).tier = Tier.silent :=
  C8_dark_mode_scenario (Except.error "recall unavailable")
    (ModelCallOutcome.fetchError "unused") (by decide)

end MemoryCortex
